import Mathlib

/-!
Verification of the overlay geometry / composite export core of the
edit-anything repository.  The embedding below translates, over exact
rationals, the code of `src/components/OverlayComponent.tsx` (overlay guard
and the drag/resize box updates of `handleMouseMove`) and
`src/services/exportService.ts` (`downloadComposite`, `renderTextOnCanvas`,
`getCompositeCanvas`).
-/

/-- A point in device pixels (e.clientX, e.clientY). -/
structure Point where
  x : ℚ
  y : ℚ
deriving DecidableEq

/-- A width/height pair: `renderedSize` or a natural image size. -/
structure Size where
  width : ℚ
  height : ℚ
deriving DecidableEq

/-- A normalized box `[yMin, xMin, yMax, xMax]`, each component intended in
[0,1], as destructured by the code (`const [yMin, xMin, yMax, xMax] = box_2d`). -/
structure Box where
  yMin : ℚ
  xMin : ℚ
  yMax : ℚ
  xMax : ℚ
deriving DecidableEq

/-- `TextDetectionData` from `src/services/aiService.ts`, with the optional
fields optional (`Option`), and `box_2d` optional as well since
`OverlayComponent` guards on `!box_2d` at runtime. -/
structure TextDetectionData where
  label : String
  box_2d : Option (List ℚ)
  color : String
  fontSize : Option ℚ := none
  fontFamily : Option String := none
  textAlign : Option String := none
  rotation : Option ℚ := none
deriving DecidableEq

/-- JavaScript `a || b` for an optional number: `undefined` and `0` (the
falsy number) both fall back to the default. -/
def jsOrQ (o : Option ℚ) (d : ℚ) : ℚ :=
  match o with
  | none => d
  | some v => if v = 0 then d else v

/-- JavaScript `a || b` for an optional string: `undefined` and `""` fall
back to the default. -/
def jsOrStr (o : Option String) (d : String) : String :=
  match o with
  | none => d
  | some s => if s = "" then d else s

/-- JavaScript truthiness of `detection.textAlign === 'center' || !detection.textAlign`
(lines 97 and 117 of exportService.ts). -/
def isCenterOrUnset (ta : Option String) : Bool :=
  match ta with
  | none => true
  | some s => s == "center" || s == ""

/-- The entry at index `i` of the (possibly missing) `box_2d` list. -/
def boxGet (b : Option (List ℚ)) (i : ℕ) : ℚ :=
  ((b.getD []).getD i 0)

/-- `Math.max(0, Math.min(1, v))`, the per-coordinate clamp used by the move
branch of `handleMouseMove`. -/
def clamp01 (v : ℚ) : ℚ :=
  max 0 (min 1 v)

/-- Gesture mode of the overlay controller while a pointer gesture is live:
`isDragging` (moving) or `isResizing`. -/
inductive EditMode where
  | moving : EditMode
  | resizing : EditMode
deriving DecidableEq

/-- The Geometry Engine box update: the two `newBox` computations of
`handleMouseMove` (OverlayComponent.tsx lines 115-133), taking the already
normalized deltas.  Moving shifts all four coordinates and clamps each to
[0,1] independently; resizing moves only `yMax`/`xMax`, clamped to
`[yMin+0.05, 1]` / `[xMin+0.05, 1]`. -/
def applyDelta (b : Box) (dx dy : ℚ) (mode : EditMode) : Box :=
  match mode with
  | EditMode.moving =>
      { yMin := clamp01 (b.yMin + dy)
      , xMin := clamp01 (b.xMin + dx)
      , yMax := clamp01 (b.yMax + dy)
      , xMax := clamp01 (b.xMax + dx) }
  | EditMode.resizing =>
      { yMin := b.yMin
      , xMin := b.xMin
      , yMax := max (b.yMin + 0.05) (min 1 (b.yMax + dy))
      , xMax := max (b.xMin + 0.05) (min 1 (b.xMax + dx)) }

/-- `handleMouseMove` (OverlayComponent.tsx lines 104-136) restricted to the
box it commits through `onBoxChange`: deltas are pointer position minus
`dragStart`, normalized by `renderedSize`; `none` when no gesture is live
(the early-return guard). -/
def handleMouseMove (isDragging isResizing : Bool) (dragStart e : Point)
    (renderedSize : Size) (b : Box) : Option Box :=
  if !isDragging && !isResizing then none
  else
    let normalizedDeltaX := (e.x - dragStart.x) / renderedSize.width
    let normalizedDeltaY := (e.y - dragStart.y) / renderedSize.height
    if isDragging then
      some (applyDelta b normalizedDeltaX normalizedDeltaY EditMode.moving)
    else
      some (applyDelta b normalizedDeltaX normalizedDeltaY EditMode.resizing)

/-- The validity invariant the spec states for a normalized box: ordered
components, all in [0,1], width and height at least 0.05. -/
def ValidBox (b : Box) : Prop :=
  0 ≤ b.yMin ∧ 0 ≤ b.xMin ∧ b.yMax ≤ 1 ∧ b.xMax ≤ 1 ∧
  b.yMin ≤ b.yMax ∧ b.xMin ≤ b.xMax ∧
  0.05 ≤ b.yMax - b.yMin ∧ 0.05 ≤ b.xMax - b.xMin

instance (b : Box) : Decidable (ValidBox b) := by
  unfold ValidBox
  infer_instance

/-- The overlay rectangle in rendered pixels (style top/left/height/width). -/
structure OverlayRect where
  top : ℚ
  left : ℚ
  height : ℚ
  width : ℚ
deriving DecidableEq

/-- The geometry `OverlayComponent` renders (lines 30-39): `none` exactly
when the guard `!box_2d || box_2d.length < 4 || renderedSize.width === 0 ||
renderedSize.height === 0` fires, otherwise the pixel rectangle. -/
def overlayRender (box_2d : Option (List ℚ)) (renderedSize : Size) :
    Option OverlayRect :=
  match box_2d with
  | none => none
  | some l =>
      if l.length < 4 ∨ renderedSize.width = 0 ∨ renderedSize.height = 0 then
        none
      else
        some
          { top := l.getD 0 0 * renderedSize.height
          , left := l.getD 1 0 * renderedSize.width
          , height := (l.getD 2 0 - l.getD 0 0) * renderedSize.height
          , width := (l.getD 3 0 - l.getD 1 0) * renderedSize.width }

-- Helper lemmas about the clamp.

theorem clamp01_nonneg (v : ℚ) : 0 ≤ clamp01 v :=
  le_max_left 0 (min 1 v)

theorem clamp01_le_one (v : ℚ) : clamp01 v ≤ 1 :=
  max_le (by norm_num) (min_le_left 1 v)

theorem clamp01_mono {a b : ℚ} (h : a ≤ b) : clamp01 a ≤ clamp01 b :=
  max_le_max le_rfl (min_le_min le_rfl h)

theorem clamp01_eq_self {v : ℚ} (h0 : 0 ≤ v) (h1 : v ≤ 1) : clamp01 v = v := by
  unfold clamp01
  rw [min_eq_right h1, max_eq_right h0]

-- Embedding of exportService.ts.

/-- A primitive transform operation applied to the 2D canvas context:
`ctx.translate(tx, ty)` or `ctx.rotate(deg * Math.PI / 180)` (the argument
recorded in degrees, clockwise-positive on the canvas). -/
inductive TOp where
  | translate (tx ty : ℚ) : TOp
  | rotateDeg (deg : ℚ) : TOp
deriving DecidableEq

/-- The current drawing transform, as the sequence of primitive operations
composed onto the identity. -/
abbrev Transform := List TOp

/-- The canvas context state tracked for rotation handling: the current
transform and the `ctx.save()` stack. -/
structure CtxState where
  current : Transform
  stack : List Transform
deriving DecidableEq

/-- The initial context state: identity transform, empty save stack. -/
def ctx0 : CtxState := { current := [], stack := [] }

/-- One `ctx.fillText(line, textX, y)` call, together with the text
properties and the transform in effect when it is issued. -/
structure FillText where
  transform : Transform
  line : String
  x : ℚ
  y : ℚ
  fontSize : ℚ
  fontFamily : String
  fillStyle : String
  textAlign : String
deriving DecidableEq

/-- exportService.ts lines 73-77: `baseFontSize = detection.fontSize || 16`,
`scaledFontSize = baseFontSize * scaleFactor`,
`canvasFontSize = scaledFontSize / scaleFactor`. -/
def canvasFontSizeOf (d : TextDetectionData) (scaleFactor : ℚ) : ℚ :=
  let baseFontSize := jsOrQ d.fontSize 16
  let scaledFontSize := baseFontSize * scaleFactor
  scaledFontSize / scaleFactor

/-- exportService.ts line 89: `const lines = detection.label.split('\n')` —
split the label on each newline character. -/
def linesOf (d : TextDetectionData) : List String :=
  ((d.label.toList).splitOn (Char.ofNat 10)).map (fun cs => String.mk cs)

/-- exportService.ts line 90: `lineHeight = canvasFontSize * 1.1`. -/
def lineHeightOf (d : TextDetectionData) (scaleFactor : ℚ) : ℚ :=
  canvasFontSizeOf d scaleFactor * 1.1

/-- exportService.ts line 93: `totalTextHeight = lines.length * lineHeight`. -/
def totalTextHeightOf (d : TextDetectionData) (scaleFactor : ℚ) : ℚ :=
  ((linesOf d).length : ℚ) * lineHeightOf d scaleFactor

/-- exportService.ts lines 94-101: vertical start of the text block; the
centered branch when `textAlign === 'center' || !textAlign`, else top padding. -/
def startYOf (d : TextDetectionData) (canvasWidth canvasHeight scaleFactor : ℚ) : ℚ :=
  let y := boxGet d.box_2d 0 * canvasHeight
  let height := (boxGet d.box_2d 2 - boxGet d.box_2d 0) * canvasHeight
  if isCenterOrUnset d.textAlign then
    y + (height - totalTextHeightOf d scaleFactor) / 2
  else
    y + canvasFontSizeOf d scaleFactor * 0.1

/-- exportService.ts lines 107-111: the transform operations applied for a
rotated region — translate to the box center, rotate by `rotation` degrees,
translate back. -/
def rotationOps (d : TextDetectionData) (canvasWidth canvasHeight : ℚ) : List TOp :=
  let x := boxGet d.box_2d 1 * canvasWidth
  let y := boxGet d.box_2d 0 * canvasHeight
  let width := (boxGet d.box_2d 3 - boxGet d.box_2d 1) * canvasWidth
  let height := (boxGet d.box_2d 2 - boxGet d.box_2d 0) * canvasHeight
  let centerX := x + width / 2
  let centerY := y + height / 2
  [TOp.translate centerX centerY,
   TOp.rotateDeg (jsOrQ d.rotation 0),
   TOp.translate (-centerX) (-centerY)]

/-- exportService.ts lines 116-123: the horizontal text anchor for a line. -/
def textXOf (d : TextDetectionData) (canvasWidth scaleFactor : ℚ) : ℚ :=
  let x := boxGet d.box_2d 1 * canvasWidth
  let width := (boxGet d.box_2d 3 - boxGet d.box_2d 1) * canvasWidth
  if isCenterOrUnset d.textAlign then
    x + width / 2
  else if d.textAlign = some "right" then
    x + width - canvasFontSizeOf d scaleFactor * 0.1
  else
    x + canvasFontSizeOf d scaleFactor * 0.1

/-- `renderTextOnCanvas` (exportService.ts lines 57-132): returns the
context state after the call and the list of `fillText` draw calls it
issued, each tagged with the transform in effect.  If `rotation || 0` is
nonzero the context is saved, the rotation transform applied around the box
center, the lines drawn, and the state restored. -/
def renderTextOnCanvas (s : CtxState) (d : TextDetectionData)
    (canvasWidth canvasHeight scaleFactor : ℚ) : CtxState × List FillText :=
  let rot := jsOrQ d.rotation 0
  let s1 : CtxState :=
    if rot = 0 then s
    else { current := s.current ++ rotationOps d canvasWidth canvasHeight
         , stack := s.current :: s.stack }
  let cmds := (linesOf d).enum.map fun p =>
    { transform := s1.current
    , line := p.2
    , x := textXOf d canvasWidth scaleFactor
    , y := startYOf d canvasWidth canvasHeight scaleFactor + (p.1 : ℚ) * lineHeightOf d scaleFactor
    , fontSize := canvasFontSizeOf d scaleFactor
    , fontFamily := jsOrStr d.fontFamily "sans-serif"
    , fillStyle := d.color
    , textAlign := jsOrStr d.textAlign "center" }
  let s2 : CtxState :=
    if rot = 0 then s1
    else
      match s1.stack with
      | [] => s1
      | t :: rest => { current := t, stack := rest }
  (s2, cmds)

/-- `textDetections.forEach((detection) => renderTextOnCanvas(...))`:
threads the context state through the detections in order, collecting each
detection's draw calls. -/
def renderAllOnCanvas (s : CtxState) (dets : List TextDetectionData)
    (canvasWidth canvasHeight scaleFactor : ℚ) : CtxState × List (List FillText) :=
  match dets with
  | [] => (s, [])
  | d :: rest =>
      let r := renderTextOnCanvas s d canvasWidth canvasHeight scaleFactor
      let rs := renderAllOnCanvas r.1 rest canvasWidth canvasHeight scaleFactor
      (rs.1, r.2 :: rs.2)

/-- The background image: natural dimensions plus an opaque identifier for
its pixel contents. -/
structure ImageModel where
  naturalWidth : ℚ
  naturalHeight : ℚ
  pixels : String
deriving DecidableEq

/-- The scale factor used in preview (exportService.ts lines 36 and 187):
`renderedSize.width > 0 ? renderedSize.width / naturalWidth : 1`. -/
def scaleFactor (renderedWidth naturalWidth : ℚ) : ℚ :=
  if 0 < renderedWidth then renderedWidth / naturalWidth else 1

/-- The composite raster: canvas dimensions, the background drawn at (0,0),
the context settings, the per-region draw traces in order, and the final
context state. -/
structure CompositeCanvas where
  width : ℚ
  height : ℚ
  background : ImageModel
  textBaseline : String
  imageSmoothingEnabled : Bool
  sf : ℚ
  trace : List (List FillText)
  finalCtx : CtxState
deriving DecidableEq

/-- The canvas built by `downloadComposite` (exportService.ts lines 25-48),
i.e. the raster it hands to `triggerDownload` before blob serialization:
canvas sized to the natural resolution, scale factor from `renderedSize`,
background drawn, text settings applied, every detection rendered in order. -/
def downloadCompositeCanvas (backgroundImage : ImageModel)
    (textDetections : List TextDetectionData) (renderedSize : Size) :
    CompositeCanvas :=
  let w := backgroundImage.naturalWidth
  let h := backgroundImage.naturalHeight
  let sf := scaleFactor renderedSize.width backgroundImage.naturalWidth
  let r := renderAllOnCanvas ctx0 textDetections w h sf
  { width := w
  , height := h
  , background := backgroundImage
  , textBaseline := "top"
  , imageSmoothingEnabled := true
  , sf := sf
  , trace := r.2
  , finalCtx := r.1 }

/-- The canvas returned by `getCompositeCanvas` (exportService.ts lines
176-201): canvas sized to the natural resolution, scale factor from
`renderedSize`, background drawn, text settings applied, every detection
rendered in order. -/
def getCompositeCanvas (backgroundImage : ImageModel)
    (textDetections : List TextDetectionData) (renderedSize : Size) :
    CompositeCanvas :=
  let w := backgroundImage.naturalWidth
  let h := backgroundImage.naturalHeight
  let sf := scaleFactor renderedSize.width backgroundImage.naturalWidth
  let r := renderAllOnCanvas ctx0 textDetections w h sf
  { width := w
  , height := h
  , background := backgroundImage
  , textBaseline := "top"
  , imageSmoothingEnabled := true
  , sf := sf
  , trace := r.2
  , finalCtx := r.1 }

-- Shared helper lemmas.

/-- The box components stay ordered and inside [0,1]. -/
def InRangeOrdered (b : Box) : Prop :=
  0 ≤ b.yMin ∧ 0 ≤ b.xMin ∧ b.yMax ≤ 1 ∧ b.xMax ≤ 1 ∧
  b.yMin ≤ b.yMax ∧ b.xMin ≤ b.xMax

theorem scaleFactor_ne_zero {w n : ℚ} (hn : 0 < n) : scaleFactor w n ≠ 0 := by
  unfold scaleFactor
  split_ifs with h
  · exact div_ne_zero (ne_of_gt h) (ne_of_gt hn)
  · norm_num

theorem canvasFontSizeOf_eq {d : TextDetectionData} {fs sf : ℚ}
    (hf : d.fontSize = some fs) (h0 : fs ≠ 0) (hs : sf ≠ 0) :
    canvasFontSizeOf d sf = fs := by
  unfold canvasFontSizeOf jsOrQ
  rw [hf]
  simp only [h0, if_false]
  exact mul_div_cancel_right₀ fs hs

theorem renderTextOnCanvas_state (s : CtxState) (d : TextDetectionData)
    (cw ch sf : ℚ) : (renderTextOnCanvas s d cw ch sf).1 = s := by
  unfold renderTextOnCanvas
  by_cases h : jsOrQ d.rotation 0 = 0
  · simp [h]
  · simp [h]

theorem renderAllOnCanvas_eq (s : CtxState) (dets : List TextDetectionData)
    (cw ch sf : ℚ) :
    renderAllOnCanvas s dets cw ch sf =
      (s, dets.map fun d => (renderTextOnCanvas s d cw ch sf).2) := by
  induction dets with
  | nil => rfl
  | cons d rest ih =>
      unfold renderAllOnCanvas
      simp only [renderTextOnCanvas_state, ih, List.map_cons]

theorem applyDelta_moving_eq (b : Box) (dx dy : ℚ)
    (h1 : 0 ≤ b.yMin + dy) (h2 : b.yMax + dy ≤ 1)
    (h3 : 0 ≤ b.xMin + dx) (h4 : b.xMax + dx ≤ 1)
    (h5 : b.yMin ≤ b.yMax) (h6 : b.xMin ≤ b.xMax) :
    applyDelta b dx dy EditMode.moving =
      { yMin := b.yMin + dy, xMin := b.xMin + dx
      , yMax := b.yMax + dy, xMax := b.xMax + dx } := by
  simp only [applyDelta, Box.mk.injEq]
  refine ⟨?_, ?_, ?_, ?_⟩ <;> exact clamp01_eq_self (by linarith) (by linarith)

-- Claim theorems.

/-- C1 (amended): for every region whose stored fontSize is nonzero, every
renderedSize with positive width, and a background image of positive natural
width, the effective font size used on the natural-resolution canvas equals
the stored fontSize exactly — the scale-down by scaleFactor followed by the
scale-up cancels. -/
theorem c1_export_font_size (d : TextDetectionData) (fs renderedWidth naturalWidth : ℚ)
    (hf : d.fontSize = some fs) (h0 : fs ≠ 0)
    (hr : 0 < renderedWidth) (hn : 0 < naturalWidth) :
    canvasFontSizeOf d (scaleFactor renderedWidth naturalWidth) = fs :=
  canvasFontSizeOf_eq hf h0 (scaleFactor_ne_zero hn)

/-- C1 witness: a region with stored fontSize 20 exported over a 500-pixel
preview of a 1000-pixel image renders at font size 20. -/
theorem c1_export_font_size_witness :
    canvasFontSizeOf
      { label := "Hello", box_2d := some [1/10, 1/10, 3/10, 2/5]
      , color := "#000000", fontSize := some 20
      , fontFamily := none, textAlign := none, rotation := none }
      (scaleFactor 500 1000) = 20 :=
  c1_export_font_size _ 20 500 1000 rfl (by norm_num) (by norm_num) (by norm_num)

/-- C1 counterexample: a region with stored fontSize 0 (a stored value, but
falsy in JavaScript) is rendered at the default 16, not at its stored 0,
because of the fallback `detection.fontSize || 16`. -/
theorem c1_export_font_size_counterexample :
    canvasFontSizeOf
      { label := "Hello", box_2d := some [1/10, 1/10, 3/10, 2/5]
      , color := "#000000", fontSize := some 0
      , fontFamily := none, textAlign := none, rotation := none }
      (scaleFactor 500 1000) = 16 ∧
    (16 : ℚ) ≠ 0 ∧ (0 : ℚ) < 500 := by
  refine ⟨?_, by norm_num, by norm_num⟩
  unfold canvasFontSizeOf jsOrQ scaleFactor
  norm_num

/-- C9: applying a zero-delta move to a box whose four coordinates lie in
[0,1] returns the box unchanged. -/
theorem c9_zero_delta_move (b : Box)
    (h1 : 0 ≤ b.yMin) (h2 : b.yMin ≤ 1) (h3 : 0 ≤ b.xMin) (h4 : b.xMin ≤ 1)
    (h5 : 0 ≤ b.yMax) (h6 : b.yMax ≤ 1) (h7 : 0 ≤ b.xMax) (h8 : b.xMax ≤ 1) :
    applyDelta b 0 0 EditMode.moving = b := by
  simp only [applyDelta, add_zero]
  rw [clamp01_eq_self h1 h2, clamp01_eq_self h3 h4,
      clamp01_eq_self h5 h6, clamp01_eq_self h7 h8]

/-- C9 witness: the zero-delta move fixes the box [0.1, 0.2, 0.3, 0.4]. -/
theorem c9_zero_delta_move_witness :
    applyDelta ⟨1/10, 1/5, 3/10, 2/5⟩ 0 0 EditMode.moving = ⟨1/10, 1/5, 3/10, 2/5⟩ :=
  c9_zero_delta_move _ (by norm_num) (by norm_num) (by norm_num) (by norm_num)
    (by norm_num) (by norm_num) (by norm_num) (by norm_num)

/-- C10: the composite raster `downloadComposite` hands to blob serialization
is identical to the canvas `getCompositeCanvas` returns: same natural-resolution
dimensions, same scale factor, same background draw and context settings, and
the same region render traces in the same order. -/
theorem c10_download_matches_get (backgroundImage : ImageModel)
    (textDetections : List TextDetectionData) (renderedSize : Size) :
    downloadCompositeCanvas backgroundImage textDetections renderedSize =
      getCompositeCanvas backgroundImage textDetections renderedSize := rfl

/-- C7: when the box is missing, has fewer than 4 components, or the render
target has zero width or height, the overlay renders nothing for the region. -/
theorem c7_overlay_guard (bd : Option (List ℚ)) (rs : Size)
    (h : bd = none ∨ (∃ l, bd = some l ∧ l.length < 4) ∨
         rs.width = 0 ∨ rs.height = 0) :
    overlayRender bd rs = none := by
  unfold overlayRender
  rcases h with h | ⟨l, hl, hlen⟩ | h | h
  · rw [h]
  · rw [hl]
    simp [hlen]
  · cases bd with
    | none => rfl
    | some l => simp [h]
  · cases bd with
    | none => rfl
    | some l => simp [h]

/-- C7 witness: a region with no `box_2d` over a 500x500 render target is
suppressed. -/
theorem c7_overlay_guard_witness : overlayRender none ⟨500, 500⟩ = none :=
  c7_overlay_guard none ⟨500, 500⟩ (Or.inl rfl)

/-- C4 counterexample: moving the box [0.5, 0.5, 0.6, 0.6] by dx = -10
clamps each coordinate independently, yielding xMax = 0, not the claimed 0.1:
the width is not preserved at the left boundary. -/
theorem c4_clamp_counterexample :
    (applyDelta ⟨1/2, 1/2, 3/5, 3/5⟩ (-10) 0 EditMode.moving).xMax = 0 ∧
    (applyDelta ⟨1/2, 1/2, 3/5, 3/5⟩ (-10) 0 EditMode.moving).xMax ≠ 1/10 := by
  norm_num [applyDelta, clamp01]

/-- C4 (amended): moving [0.5, 0.5, 0.6, 0.6] by dx = -10, dy = 0 clamps each
coordinate to [0,1] independently, yielding [0.5, 0, 0.6, 0] — xMin = 0 and
xMax = 0, the width collapsing to 0 at the boundary; no coordinate escapes
[0,1] and the ordering is kept. -/
theorem c4_clamp_left_boundary :
    applyDelta ⟨1/2, 1/2, 3/5, 3/5⟩ (-10) 0 EditMode.moving = ⟨1/2, 0, 3/5, 0⟩ ∧
    InRangeOrdered (applyDelta ⟨1/2, 1/2, 3/5, 3/5⟩ (-10) 0 EditMode.moving) := by
  norm_num [applyDelta, clamp01, InRangeOrdered, Box.mk.injEq]

/-- C2 counterexample: the valid box [0.5, 0.9, 0.6, 0.95] (width exactly
0.05) moved right by dx = 0.08 is clamped asymmetrically at the right edge:
the committed box [0.5, 0.98, 0.6, 1] has width 0.02 < 0.05, so a move edit
does not keep the minimum width. -/
theorem c2_invariant_counterexample :
    ValidBox ⟨1/2, 9/10, 3/5, 19/20⟩ ∧
    (applyDelta ⟨1/2, 9/10, 3/5, 19/20⟩ (2/25) 0 EditMode.moving).xMax -
      (applyDelta ⟨1/2, 9/10, 3/5, 19/20⟩ (2/25) 0 EditMode.moving).xMin < 0.05 := by
  constructor
  · norm_num [ValidBox]
  · norm_num [applyDelta, clamp01]

/-- C2 (amended): from a valid box, any move or resize edit commits a box
that still satisfies yMin ≤ yMax and xMin ≤ xMax with all coordinates in
[0,1]; a resize edit additionally keeps width and height at least 0.05, but a
move edit clamped at the frame boundary may shrink them below 0.05. -/
theorem c2_edit_invariants (b : Box) (dx dy : ℚ) (mode : EditMode)
    (h : ValidBox b) :
    InRangeOrdered (applyDelta b dx dy mode) ∧
    0.05 ≤ (applyDelta b dx dy EditMode.resizing).yMax -
      (applyDelta b dx dy EditMode.resizing).yMin ∧
    0.05 ≤ (applyDelta b dx dy EditMode.resizing).xMax -
      (applyDelta b dx dy EditMode.resizing).xMin := by
  obtain ⟨hy0, hx0, hy1, hx1, hyo, hxo, hyw, hxw⟩ := h
  refine ⟨?_, ?_, ?_⟩
  · cases mode with
    | moving =>
        exact ⟨clamp01_nonneg _, clamp01_nonneg _, clamp01_le_one _,
          clamp01_le_one _, clamp01_mono (by linarith), clamp01_mono (by linarith)⟩
    | resizing =>
        refine ⟨hy0, hx0, ?_, ?_, ?_, ?_⟩
        · exact max_le (by linarith) (min_le_left _ _)
        · exact max_le (by linarith) (min_le_left _ _)
        · show b.yMin ≤ max (b.yMin + 0.05) (min 1 (b.yMax + dy))
          exact le_trans (by linarith) (le_max_left _ _)
        · show b.xMin ≤ max (b.xMin + 0.05) (min 1 (b.xMax + dx))
          exact le_trans (by linarith) (le_max_left _ _)
  · show (0.05 : ℚ) ≤ max (b.yMin + 0.05) (min 1 (b.yMax + dy)) - b.yMin
    have := le_max_left (b.yMin + (0.05 : ℚ)) (min 1 (b.yMax + dy))
    linarith
  · show (0.05 : ℚ) ≤ max (b.xMin + 0.05) (min 1 (b.xMax + dx)) - b.xMin
    have := le_max_left (b.xMin + (0.05 : ℚ)) (min 1 (b.xMax + dx))
    linarith

/-- C2 witness: the amended invariants hold for the valid box
[0.1, 0.1, 0.3, 0.4] under a move by (dx, dy) = (0.2, 0.3). -/
theorem c2_edit_invariants_witness :
    InRangeOrdered (applyDelta ⟨1/10, 1/10, 3/10, 2/5⟩ (1/5) (3/10) EditMode.moving) ∧
    0.05 ≤ (applyDelta ⟨1/10, 1/10, 3/10, 2/5⟩ (1/5) (3/10) EditMode.resizing).yMax -
      (applyDelta ⟨1/10, 1/10, 3/10, 2/5⟩ (1/5) (3/10) EditMode.resizing).yMin ∧
    0.05 ≤ (applyDelta ⟨1/10, 1/10, 3/10, 2/5⟩ (1/5) (3/10) EditMode.resizing).xMax -
      (applyDelta ⟨1/10, 1/10, 3/10, 2/5⟩ (1/5) (3/10) EditMode.resizing).xMin :=
  c2_edit_invariants ⟨1/10, 1/10, 3/10, 2/5⟩ (1/5) (3/10) EditMode.moving
    (by norm_num [ValidBox])

/-- C3: during a resize of a valid box, yMin and xMin pass through unchanged
and the new yMax lies in [yMin + 0.05, 1], the new xMax in [xMin + 0.05, 1];
and on the concrete input [0.2, 0.2, 0.3, 0.3] with dx = dy = -100 the
committed yMax and xMax stay at least 0.25. -/
theorem c3_resize_clamps (b : Box) (dx dy : ℚ) (h : ValidBox b) :
    (applyDelta b dx dy EditMode.resizing).yMin = b.yMin ∧
    (applyDelta b dx dy EditMode.resizing).xMin = b.xMin ∧
    b.yMin + 0.05 ≤ (applyDelta b dx dy EditMode.resizing).yMax ∧
    (applyDelta b dx dy EditMode.resizing).yMax ≤ 1 ∧
    b.xMin + 0.05 ≤ (applyDelta b dx dy EditMode.resizing).xMax ∧
    (applyDelta b dx dy EditMode.resizing).xMax ≤ 1 ∧
    1/4 ≤ (applyDelta ⟨1/5, 1/5, 3/10, 3/10⟩ (-100) (-100) EditMode.resizing).yMax ∧
    1/4 ≤ (applyDelta ⟨1/5, 1/5, 3/10, 3/10⟩ (-100) (-100) EditMode.resizing).xMax := by
  obtain ⟨hy0, hx0, hy1, hx1, hyo, hxo, hyw, hxw⟩ := h
  refine ⟨rfl, rfl, le_max_left _ _, max_le (by linarith) (min_le_left _ _),
    le_max_left _ _, max_le (by linarith) (min_le_left _ _), ?_, ?_⟩ <;>
    norm_num [applyDelta, clamp01]

/-- C3 witness: the resize bounds hold for the valid box [0.1, 0.1, 0.3, 0.4]
with dx = dy = -100. -/
theorem c3_resize_clamps_witness :
    (applyDelta ⟨1/10, 1/10, 3/10, 2/5⟩ (-100) (-100) EditMode.resizing).yMin = (1/10 : ℚ) ∧
    (applyDelta ⟨1/10, 1/10, 3/10, 2/5⟩ (-100) (-100) EditMode.resizing).xMin = (1/10 : ℚ) ∧
    (1/10 : ℚ) + 0.05 ≤ (applyDelta ⟨1/10, 1/10, 3/10, 2/5⟩ (-100) (-100) EditMode.resizing).yMax ∧
    (applyDelta ⟨1/10, 1/10, 3/10, 2/5⟩ (-100) (-100) EditMode.resizing).yMax ≤ 1 ∧
    (1/10 : ℚ) + 0.05 ≤ (applyDelta ⟨1/10, 1/10, 3/10, 2/5⟩ (-100) (-100) EditMode.resizing).xMax ∧
    (applyDelta ⟨1/10, 1/10, 3/10, 2/5⟩ (-100) (-100) EditMode.resizing).xMax ≤ 1 ∧
    1/4 ≤ (applyDelta ⟨1/5, 1/5, 3/10, 3/10⟩ (-100) (-100) EditMode.resizing).yMax ∧
    1/4 ≤ (applyDelta ⟨1/5, 1/5, 3/10, 3/10⟩ (-100) (-100) EditMode.resizing).xMax :=
  c3_resize_clamps ⟨1/10, 1/10, 3/10, 2/5⟩ (-100) (-100) (by norm_num [ValidBox])

/-- C6: a move gesture from pointer (100,100) to (110,115) over a 500x500
renderedSize normalizes the delta per axis to (+0.02, +0.03) and commits the
box shifted by exactly that amount whenever no clamping triggers. -/
theorem c6_gesture_normalization (b : Box)
    (h1 : 0 ≤ b.yMin + 3/100) (h2 : b.yMax + 3/100 ≤ 1)
    (h3 : 0 ≤ b.xMin + 1/50) (h4 : b.xMax + 1/50 ≤ 1)
    (h5 : b.yMin ≤ b.yMax) (h6 : b.xMin ≤ b.xMax) :
    handleMouseMove true false ⟨100, 100⟩ ⟨110, 115⟩ ⟨500, 500⟩ b =
      some { yMin := b.yMin + 3/100, xMin := b.xMin + 1/50
           , yMax := b.yMax + 3/100, xMax := b.xMax + 1/50 } := by
  unfold handleMouseMove
  norm_num
  exact applyDelta_moving_eq b (1/50) (3/100) h1 h2 h3 h4 h5 h6

/-- C6 witness: the gesture shifts the box [0.1, 0.1, 0.2, 0.2] to
[0.13, 0.12, 0.23, 0.22]. -/
theorem c6_gesture_normalization_witness :
    handleMouseMove true false ⟨100, 100⟩ ⟨110, 115⟩ ⟨500, 500⟩ ⟨1/10, 1/10, 1/5, 1/5⟩ =
      some { yMin := (1/10 : ℚ) + 3/100, xMin := (1/10 : ℚ) + 1/50
           , yMax := (1/5 : ℚ) + 3/100, xMax := (1/5 : ℚ) + 1/50 } :=
  c6_gesture_normalization ⟨1/10, 1/10, 1/5, 1/5⟩ (by norm_num) (by norm_num)
    (by norm_num) (by norm_num) (by norm_num) (by norm_num)

/-- The region of the C5 export scenario. -/
def c5Region : TextDetectionData :=
  { label := "Hi\nThere", box_2d := some [1/10, 1/10, 3/10, 2/5]
  , color := "#000000", fontSize := some 20
  , fontFamily := none, textAlign := some "center", rotation := none }

/-- C5: exporting the region {label:"Hi\nThere", box:[0.1,0.1,0.3,0.4],
fontSize:20, textAlign:"center"} against a 1000x1000 natural image — for any
rendered width — splits the label into exactly the two lines "Hi" and
"There", computes lineHeight = 22, a total text-block height of 44 px, and a
vertical start startY = 100 + (200 - 44)/2 = 178. -/
theorem c5_export_scenario (renderedWidth : ℚ) :
    linesOf c5Region = ["Hi", "There"] ∧
    (linesOf c5Region).length = 2 ∧
    lineHeightOf c5Region (scaleFactor renderedWidth 1000) = 22 ∧
    totalTextHeightOf c5Region (scaleFactor renderedWidth 1000) = 44 ∧
    startYOf c5Region 1000 1000 (scaleFactor renderedWidth 1000) = 178 := by
  have hsf : scaleFactor renderedWidth 1000 ≠ 0 := scaleFactor_ne_zero (by norm_num)
  have hcf : canvasFontSizeOf c5Region (scaleFactor renderedWidth 1000) = 20 :=
    canvasFontSizeOf_eq rfl (by norm_num) hsf
  have hlines : linesOf c5Region = ["Hi", "There"] := rfl
  have hlh : lineHeightOf c5Region (scaleFactor renderedWidth 1000) = 22 := by
    unfold lineHeightOf
    rw [hcf]
    norm_num
  have htt : totalTextHeightOf c5Region (scaleFactor renderedWidth 1000) = 44 := by
    unfold totalTextHeightOf
    rw [hlh, hlines]
    norm_num
  refine ⟨hlines, rfl, hlh, htt, ?_⟩
  unfold startYOf
  rw [htt]
  norm_num [c5Region, boxGet, isCenterOrUnset]

/-- C8: rendering a region whose rotation is nonzero rotates the transform
about the box center (translate to center, rotate by the angle in degrees,
translate back) for exactly the fillText calls of that region's lines, while
a rotation of 0 leaves the base transform; the context state after each
region equals the state before it, so in a region list every region is drawn
from the same unrotated context and its trace is what it would be from that
clean state — rotation never leaks into subsequently drawn regions. -/
theorem c8_rotation_restored (s : CtxState) (d : TextDetectionData)
    (dets : List TextDetectionData) (cw ch sf : ℚ) :
    (renderTextOnCanvas s d cw ch sf).1 = s ∧
    ((renderTextOnCanvas s d cw ch sf).2).map FillText.transform =
      List.replicate (linesOf d).length
        (if jsOrQ d.rotation 0 = 0 then s.current
         else s.current ++ rotationOps d cw ch) ∧
    (renderAllOnCanvas s dets cw ch sf).1 = s ∧
    (renderAllOnCanvas s dets cw ch sf).2 =
      dets.map (fun d2 => (renderTextOnCanvas s d2 cw ch sf).2) := by
  refine ⟨renderTextOnCanvas_state s d cw ch sf, ?_, ?_, ?_⟩
  · by_cases h : jsOrQ d.rotation 0 = 0 <;>
      simp [renderTextOnCanvas, h, List.map_map, Function.comp_def, List.map_const', List.enum_length]
  · rw [renderAllOnCanvas_eq]
  · rw [renderAllOnCanvas_eq]
